import Mathlib

/-!
Verification development for the `comfyui-model-downloader` repository.

The development shallowly embeds the two verified subsystems:

* the model-type classifier of `cloud_model_downloader.py`
  (`_detect_model_type`, `_detect_from_safetensors`, `_detect_from_filename`,
  `_detect_from_size`), and
* the credential store and environment binder of `model_downloader/__init__.py`
  (`ConfigManager.load_config` / `save_config` / `save_remote` / `get_remote`,
  `encrypt_data` / `decrypt_data`, and `_setup_rclone_env`).

Python strings are Lean `String`s; Python string operations (`in`, `lower`,
`upper`, `startswith`, `endswith`) are embedded below on the character lists.
Python floats appear only as literal confidence constants and as the byte-size
divided by 1024*1024; since every byte count of interest is below 2^53 these
float computations are exact, so they are embedded as rationals.  Fallible
operations return `Option`/`Except`.
-/

namespace CMD

/-! ## Embedding of the Python string primitives -/

/-- Substring occurrence on character lists: `needle` occurs contiguously in
`hay`.  Embeds the Python expression `needle in hay` for strings. -/
def subIn (needle hay : List Char) : Bool :=
  hay.tails.any fun t => needle.isPrefixOf t

/-- Python `sub in s` for strings. -/
def pyIn (sub s : String) : Bool := subIn sub.data s.data

/-- Python `s.lower()`. -/
def pylower (s : String) : String := ⟨s.data.map Char.toLower⟩

/-- Python `s.upper()`. -/
def pyupper (s : String) : String := ⟨s.data.map Char.toUpper⟩

/-- Python `s.startswith(p)`. -/
def pystartswith (s p : String) : Bool := p.data.isPrefixOf s.data

/-- Python `s.endswith(p)`. -/
def pyendswith (s p : String) : Bool := p.data.isSuffixOf s.data

/-! ## Classifier data model (`cloud_model_downloader.py`) -/

/-- The `(type, confidence, reason)` triple returned by `_detect_model_type`
and its helpers.  Confidences are float literals in the source; they are
embedded as rationals. -/
structure ClassificationResult where
  category : String
  confidence : ℚ
  reason : String
deriving DecidableEq, Repr

/-- A parsed safetensors header: `json.loads` of the header region.
`keys` are the JSON object's keys in declared order (`header.keys()`), and
`metadata` is the string-to-string mapping stored under the reserved
`"__metadata__"` key, or `[]` when that key is absent — which matches the
source's `header.get('__metadata__', {})` default. -/
structure STHeader where
  keys : List String
  metadata : List (String × String)
deriving DecidableEq, Repr

/-- `tensor_names = [k for k in header.keys() if k != '__metadata__']`. -/
def tensor_names_of (h : STHeader) : List String :=
  h.keys.filter fun k => k ≠ "__metadata__"

/-- `vae_patterns` from `_detect_from_safetensors`. -/
def vae_patterns : List String :=
  ["encoder.", "decoder.", "quant_conv", "post_quant_conv"]

/-- `lora_patterns` from `_detect_from_safetensors`. -/
def lora_patterns : List String :=
  ["lora_unet", "lora_te", ".lora_up.", ".lora_down.", ".alpha"]

/-- `model_patterns` from `_detect_from_safetensors`. -/
def model_patterns : List String :=
  ["model.diffusion_model", "cond_stage_model", "first_stage_model"]

/-- `any(any(pattern in name for pattern in patterns) for name in names)`. -/
def anyPattern (patterns names : List String) : Bool :=
  names.any fun name => patterns.any fun p => pyIn p name

/-- The tensor-name-pattern block of `_detect_from_safetensors`
(everything from `first_tensors = tensor_names[:10]` to the final
`return None`). -/
def detect_from_tensor_names (tensor_names : List String) :
    Option ClassificationResult :=
  let first_tensors := tensor_names.take 10
  if anyPattern vae_patterns first_tensors then
    some ⟨"vae", 0.9, "tensor names match VAE patterns"⟩
  else if anyPattern lora_patterns first_tensors then
    some ⟨"loras", 0.9, "tensor names match LoRA patterns"⟩
  else if anyPattern model_patterns first_tensors then
    some ⟨"checkpoints", 0.9, "tensor names match checkpoint patterns"⟩
  else if first_tensors.any (fun name => pyIn "control_model" name) then
    some ⟨"controlnet", 0.9, "tensor names match ControlNet patterns"⟩
  else if first_tensors.any
      (fun name => pyIn "text_model" name || pyIn "embeddings" name) then
    if tensor_names.length < 100 then
      some ⟨"clip", 0.8, "tensor names match CLIP patterns"⟩
    else none
  else none

/-- The part of `_detect_from_safetensors` that runs after the header JSON has
been parsed: the `if not tensor_names: return None` guard, the
`__metadata__` architecture check, and the tensor-name patterns. -/
def detect_from_header (h : STHeader) : Option ClassificationResult :=
  let tensor_names := tensor_names_of h
  if tensor_names = [] then none
  else
    match List.lookup "modelspec.architecture" h.metadata with
    | some archRaw =>
      let arch := pylower archRaw
      if pyIn "vae" arch then
        some ⟨"vae", 0.95, "metadata architecture contains VAE"⟩
      else if pyIn "lora" arch then
        some ⟨"loras", 0.95, "metadata architecture contains LoRA"⟩
      else detect_from_tensor_names tensor_names
    | none => detect_from_tensor_names tensor_names

/-- `int.from_bytes(bs, 'little')`.  File bytes are 0–255; the `% 256`
makes the function agree with that reading on all `Nat` inputs. -/
def leNat (bs : List Nat) : Nat :=
  bs.foldr (fun b acc => b % 256 + 256 * acc) 0

/-- The bytes handed to `json.loads` by `_detect_from_safetensors`:
`f.read(8)` yields the first (at most) 8 bytes, `int.from_bytes` of those is
the header length, and `f.read(header_length)` yields at most that many of
the following bytes. -/
def headerSlice (bytes : List Nat) : List Nat :=
  (bytes.drop 8).take (leNat (bytes.take 8))

/-- `_detect_from_safetensors` on the raw file bytes.  `decode` stands for the
library pipeline `bytes.decode('utf-8')` followed by `json.loads` and the
dictionary view of the result; it returns `none` exactly when that pipeline
raises (non-UTF-8 bytes, non-JSON text, non-object JSON), which the source
lets propagate to the caller — embedded as `Except.error`. -/
def detect_from_safetensors (decode : List Nat → Option STHeader)
    (bytes : List Nat) : Except Unit (Option ClassificationResult) :=
  match decode (headerSlice bytes) with
  | none => Except.error ()
  | some h => Except.ok (detect_from_header h)

/-- `_detect_from_filename`. -/
def detect_from_filename (filename : String) : Option ClassificationResult :=
  let name_lower := pylower filename
  if pyIn "vae" name_lower then
    some ⟨"vae", 0.8, "filename contains \"vae\""⟩
  else if pyIn "lora" name_lower then
    some ⟨"loras", 0.8, "filename contains \"lora\""⟩
  else if pyIn "controlnet" name_lower || pyIn "control_" name_lower then
    some ⟨"controlnet", 0.8, "filename contains controlnet indicator"⟩
  else if pyIn "upscale" name_lower || pyIn "esrgan" name_lower
      || pyIn "realesrgan" name_lower then
    some ⟨"upscale_models", 0.8, "filename contains upscale indicator"⟩
  else if pyIn "embedding" name_lower || pyIn "textual_inversion" name_lower then
    some ⟨"embeddings", 0.8, "filename contains embedding indicator"⟩
  else if pyIn "clip" name_lower then
    some ⟨"clip", 0.7, "filename contains \"clip\""⟩
  else none

/-- `size_mb = os.path.getsize(file_path) / (1024 * 1024)` as an exact
rational (exact as a float for every realistic size, i.e. below 2^53). -/
def mbValue (sizeBytes : Nat) : ℚ := (sizeBytes : ℚ) / (1024 * 1024)

/-- Python `f'{size_mb:.0f}'` on the exact value `sizeBytes / 2^20`:
round to the nearest integer, ties to even. -/
def fmtMB (sizeBytes : Nat) : String :=
  let q := sizeBytes / 1048576
  let r := sizeBytes % 1048576
  let rounded :=
    if 524288 < r then q + 1
    else if r < 524288 then q
    else if q % 2 = 0 then q else q + 1
  toString rounded

/-- `_detect_from_size`. -/
def detect_from_size (sizeBytes : Nat) (filename : String) :
    ClassificationResult :=
  let size_mb := mbValue sizeBytes
  if size_mb < 50 then
    ⟨"unknown", 0.3, "small file (" ++ fmtMB sizeBytes ++ "MB) - unclear type"⟩
  else if size_mb < 500 then
    ⟨"unknown", 0.4,
      "medium file (" ++ fmtMB sizeBytes ++ "MB) - could be LoRA or VAE"⟩
  else if size_mb < 3000 then
    ⟨"unknown", 0.5,
      "large file (" ++ fmtMB sizeBytes ++ "MB) - could be checkpoint"⟩
  else
    ⟨"checkpoints", 0.6,
      "very large file (" ++ fmtMB sizeBytes ++ "MB) - likely checkpoint"⟩

/-- `_detect_model_type`: the four-tier cascade.  An exception escaping
`_detect_from_safetensors` is caught (`except Exception`), printed, and the
cascade falls through to the filename tier, exactly like a `None` result. -/
def detect_model_type (decode : List Nat → Option STHeader)
    (bytes : List Nat) (filename : String) (sizeBytes : Nat) :
    ClassificationResult :=
  let fromSt : Option ClassificationResult :=
    if pyendswith filename ".safetensors" then
      match detect_from_safetensors decode bytes with
      | Except.error _ => none
      | Except.ok r => r
    else none
  match fromSt with
  | some r => r
  | none =>
    match detect_from_filename filename with
    | some r => r
    | none => detect_from_size sizeBytes filename

/-! ## Credential store (`model_downloader/__init__.py`, `ConfigManager`) -/

/-- The `remote_config` dictionary built by `download_model` and consumed by
`save_remote` / `_setup_rclone_env`: all six fields are always present,
optional ones as the empty string. -/
structure RemoteConfig where
  provider : String
  access_key_id : String
  secret_access_key : String
  bucket : String
  endpoint : String
  region : String
deriving DecidableEq, Repr

/-- The configuration document `{"last_used_remote": ..., "remotes": {...}}`.
`remotes` is the insertion-ordered dictionary as an association list. -/
structure Config where
  last_used_remote : Option String
  remotes : List (String × RemoteConfig)
deriving DecidableEq, Repr

/-- `{"last_used_remote": None, "remotes": {}}`. -/
def defaultConfig : Config := ⟨none, []⟩

/-- A value produced by `encrypt_data`: in the source,
`base64.b64encode(self.cipher.encrypt(json.dumps(data).encode()))`.
Fernet is an authenticated cipher and `json.dumps`/`json.loads` round-trip
the document, so the token is embedded symbolically as the pair of the key it
was produced under and the document it encrypts; decryption under any other
key fails (`InvalidToken`). -/
structure EncBlob where
  key : String
  payload : Config
deriving DecidableEq, Repr

/-- `ConfigManager.encrypt_data` (composed with `json.dumps`). -/
def encrypt_data (key : String) (cfg : Config) : EncBlob := ⟨key, cfg⟩

/-- `ConfigManager.decrypt_data` (composed with `json.loads`); `none` embeds
the `InvalidToken` exception raised when the key material does not match. -/
def decrypt_data (key : String) (b : EncBlob) : Option Config :=
  if b.key = key then some b.payload else none

/-- The contents of `model_downloader_config.json`: absent, or one
encrypted blob. -/
abbrev ConfigFile := Option EncBlob

/-- `ConfigManager.load_config`: missing file yields the default document;
a decryption (or parse) failure is caught and also yields the default. -/
def load_config (key : String) (file : ConfigFile) : Config :=
  match file with
  | none => defaultConfig
  | some b =>
    match decrypt_data key b with
    | some cfg => cfg
    | none => defaultConfig

/-- `ConfigManager.save_config`: the whole document is encrypted as one blob
and written as the file's only content. -/
def save_config (key : String) (cfg : Config) : ConfigFile :=
  some (encrypt_data key cfg)

/-- Python dictionary assignment `d[k] = v` on an association list: replace in
place when the key exists, append otherwise. -/
def dictSet (k : String) (v : RemoteConfig)
    (l : List (String × RemoteConfig)) : List (String × RemoteConfig) :=
  if l.any (fun p => p.1 = k) then
    l.map fun p => if p.1 = k then (k, v) else p
  else l ++ [(k, v)]

/-- `ConfigManager.save_remote`. -/
def save_remote (key : String) (file : ConfigFile) (remote_name : String)
    (remote_config : RemoteConfig) : ConfigFile :=
  let config := load_config key file
  save_config key
    ⟨some remote_name, dictSet remote_name remote_config config.remotes⟩

/-- `ConfigManager.get_remote`.  The argument defaults to `None` in the
source; `None` and the empty string are both falsy and follow the same
`last_used_remote` branch, so the empty string stands for both here. -/
def get_remote (key : String) (file : ConfigFile) (remote_name : String) :
    Option RemoteConfig :=
  let config := load_config key file
  if remote_name ≠ "" then List.lookup remote_name config.remotes
  else
    match config.last_used_remote with
    | some last =>
      if last ≠ "" then List.lookup last config.remotes else none
    | none => none

/-- Modelled from the spec: the per-field authenticated encryption that
§4.3/§6 of the specification claim is applied to `access_key_id` and
`secret_access_key` individually before persisting (no such per-field
encryption exists in the source, which encrypts the whole document).  A
symbolic Fernet token over a single string field. -/
def specFieldCipher (key plain : String) : String :=
  "fernet:" ++ key ++ ":" ++ plain

/-! ## Environment binder (`_setup_rclone_env`) -/

/-- The process environment `os.environ`, as a partial map. -/
abbrev Env := String → Option String

/-- `os.environ[k] = v`. -/
def envSet (k v : String) (e : Env) : Env :=
  fun k' => if k' = k then some v else e k'

/-- The loop `for key in list(os.environ.keys()): if key.startswith(pfx):
del os.environ[key]`. -/
def envClear (pfx : String) (e : Env) : Env :=
  fun k => if pystartswith k pfx then none else e k

/-- `f"RCLONE_CONFIG_{remote_name.upper()}_"`. -/
def rclonePfx (remote_name : String) : String :=
  "RCLONE_CONFIG_" ++ pyupper remote_name ++ "_"

/-- `f"RCLONE_CONFIG_{remote_name.upper()}_{field}"`. -/
def rcloneKey (remote_name field : String) : String :=
  rclonePfx remote_name ++ field

/-- `_setup_rclone_env`.  The `'access_key_id' in remote_config` membership
tests are true for every profile dictionary this repository constructs (all
six keys are always present), so those two sets are unconditional here; the
bucket/endpoint/region sets are additionally guarded by Python truthiness of
the value, i.e. non-emptiness. -/
def setup_rclone_env (remote_name : String) (rc : RemoteConfig) (e : Env) :
    Env :=
  let e0 := envClear (rclonePfx remote_name) e
  let e1 := envSet (rcloneKey remote_name "TYPE") rc.provider e0
  let e2 := envSet (rcloneKey remote_name "ACCESS_KEY_ID") rc.access_key_id e1
  let e3 :=
    envSet (rcloneKey remote_name "SECRET_ACCESS_KEY") rc.secret_access_key e2
  let e4 :=
    if rc.bucket ≠ "" then envSet (rcloneKey remote_name "BUCKET") rc.bucket e3
    else e3
  let e5 :=
    if rc.endpoint ≠ "" then
      envSet (rcloneKey remote_name "ENDPOINT") rc.endpoint e4
    else e4
  let e6 :=
    if rc.region ≠ "" then envSet (rcloneKey remote_name "REGION") rc.region e5
    else e5
  let p := pylower rc.provider
  if p = "s3" then envSet (rcloneKey remote_name "PROVIDER") "AWS" e6
  else if p = "google cloud storage" then
    envSet (rcloneKey remote_name "PROVIDER") "GCS" e6
  else if p = "azureblob" then
    envSet (rcloneKey remote_name "PROVIDER") "AzureBlob" e6
  else e6

end CMD

namespace CMD

/-! ## Helper lemmas -/

lemma mbValue_lt_50 (s : ℕ) : mbValue s < 50 ↔ s < 52428800 := by
  unfold mbValue
  rw [div_lt_iff₀ (by norm_num : (0:ℚ) < 1024 * 1024)]
  exact_mod_cast Iff.rfl

lemma mbValue_lt_500 (s : ℕ) : mbValue s < 500 ↔ s < 524288000 := by
  unfold mbValue
  rw [div_lt_iff₀ (by norm_num : (0:ℚ) < 1024 * 1024)]
  exact_mod_cast Iff.rfl

lemma mbValue_lt_3000 (s : ℕ) : mbValue s < 3000 ↔ s < 3145728000 := by
  unfold mbValue
  rw [div_lt_iff₀ (by norm_num : (0:ℚ) < 1024 * 1024)]
  exact_mod_cast Iff.rfl

lemma detect_from_size_small (s : ℕ) (fn : String) (h : s < 52428800) :
    detect_from_size s fn =
      ⟨"unknown", 0.3, "small file (" ++ fmtMB s ++ "MB) - unclear type"⟩ := by
  simp only [detect_from_size]
  rw [if_pos ((mbValue_lt_50 s).2 h)]

lemma detect_from_size_medium (s : ℕ) (fn : String) (h1 : 52428800 ≤ s)
    (h2 : s < 524288000) :
    detect_from_size s fn =
      ⟨"unknown", 0.4, "medium file (" ++ fmtMB s ++ "MB) - could be LoRA or VAE"⟩ := by
  simp only [detect_from_size]
  rw [if_neg, if_pos ((mbValue_lt_500 s).2 h2)]
  rw [mbValue_lt_50]
  omega

lemma detect_from_size_large (s : ℕ) (fn : String) (h1 : 524288000 ≤ s)
    (h2 : s < 3145728000) :
    detect_from_size s fn =
      ⟨"unknown", 0.5, "large file (" ++ fmtMB s ++ "MB) - could be checkpoint"⟩ := by
  simp only [detect_from_size]
  rw [if_neg, if_neg, if_pos ((mbValue_lt_3000 s).2 h2)]
  · rw [mbValue_lt_500]; omega
  · rw [mbValue_lt_50]; omega

lemma detect_from_size_xlarge (s : ℕ) (fn : String) (h : 3145728000 ≤ s) :
    detect_from_size s fn =
      ⟨"checkpoints", 0.6, "very large file (" ++ fmtMB s ++ "MB) - likely checkpoint"⟩ := by
  simp only [detect_from_size]
  rw [if_neg, if_neg, if_neg]
  · rw [mbValue_lt_3000]; omega
  · rw [mbValue_lt_500]; omega
  · rw [mbValue_lt_50]; omega

end CMD

namespace CMD

/-! ## Demo profiles used by concrete witnesses and counterexamples -/

/-- The profile of spec scenario 4: `{provider:"b2", access_key_id:"AK",
secret_access_key:"SK", bucket:"models"}` with empty optional fields. -/
def rcDemo : RemoteConfig := ⟨"b2", "AK", "SK", "models", "", ""⟩

/-- A first binding for the rebinding scenario. -/
def rcFirst : RemoteConfig := ⟨"b2", "AK1", "SK1", "bucket-one", "", ""⟩

/-- A second binding for the rebinding scenario, with a different bucket. -/
def rcSecond : RemoteConfig := ⟨"b2", "AK2", "SK2", "bucket-two", "", ""⟩

/-! ## Association-list lemmas for the remotes dictionary -/

lemma lookup_map_replace (k : String) (v : RemoteConfig)
    (l : List (String × RemoteConfig)) (h : l.any (fun p => p.1 = k) = true) :
    List.lookup k (l.map fun p => if p.1 = k then (k, v) else p) = some v := by
  induction l with
  | nil => simp at h
  | cons p t ih =>
    obtain ⟨a, b⟩ := p
    by_cases hp : a = k
    · simp [List.lookup_cons, hp]
    · simp only [List.any_cons, decide_eq_true_eq, Bool.or_eq_true] at h
      rcases h with h | h
      · exact absurd h hp
      · simp only [List.map_cons, if_neg hp, List.lookup_cons,
          beq_false_of_ne (fun e => hp e.symm)]
        exact ih h

lemma lookup_append_single (k : String) (v : RemoteConfig)
    (l : List (String × RemoteConfig))
    (h : l.any (fun p => p.1 = k) = false) :
    List.lookup k (l ++ [(k, v)]) = some v := by
  induction l with
  | nil => simp [List.lookup_cons]
  | cons p t ih =>
    obtain ⟨a, b⟩ := p
    simp only [List.any_cons, Bool.or_eq_false_iff, decide_eq_false_iff_not] at h
    simp only [List.cons_append, List.lookup_cons,
      beq_false_of_ne (fun e => h.1 e.symm)]
    exact ih (by simp [h.2])

lemma lookup_dictSet (k : String) (v : RemoteConfig)
    (l : List (String × RemoteConfig)) :
    List.lookup k (dictSet k v l) = some v := by
  unfold dictSet
  by_cases h : l.any (fun p => p.1 = k) = true
  · rw [if_pos h]; exact lookup_map_replace k v l h
  · rw [if_neg h]
    simp only [Bool.not_eq_true] at h
    exact lookup_append_single k v l h

/-! ## Environment-binder lemmas -/

lemma pystartswith_rcloneKey (n f : String) :
    pystartswith (rcloneKey n f) (rclonePfx n) = true := by
  unfold pystartswith rcloneKey
  rw [List.isPrefixOf_iff_prefix, String.data_append]
  exact List.prefix_append _ _

lemma rcloneKey_ne_of_ne (n : String) {f g : String} (h : f ≠ g) :
    rcloneKey n f ≠ rcloneKey n g := by
  intro he
  apply h
  have hd : (rclonePfx n ++ f).data = (rclonePfx n ++ g).data :=
    congrArg String.data he
  rw [String.data_append, String.data_append] at hd
  have hfg := List.append_cancel_left hd
  cases f; cases g
  exact congrArg String.mk hfg

lemma setup_apply_pos (n : String) (rc : RemoteConfig) (e e' : Env) (k : String)
    (hk : pystartswith k (rclonePfx n) = true) :
    setup_rclone_env n rc e k = setup_rclone_env n rc e' k := by
  simp only [setup_rclone_env]
  split_ifs <;> simp [envSet, envClear, hk]

lemma setup_apply_neg (n : String) (rc : RemoteConfig) (e : Env) (k : String)
    (hk : pystartswith k (rclonePfx n) = false) :
    setup_rclone_env n rc e k = e k := by
  have hne : ∀ f : String, ¬(k = rcloneKey n f) := by
    intro f he
    rw [he, pystartswith_rcloneKey] at hk
    cases hk
  simp only [setup_rclone_env]
  split_ifs <;> simp [envSet, envClear, hk, hne]

lemma setup_bucket_value (n : String) (rc : RemoteConfig) (e : Env)
    (hb : rc.bucket ≠ "") :
    setup_rclone_env n rc e (rcloneKey n "BUCKET") = some rc.bucket := by
  have hP := rcloneKey_ne_of_ne n (show ("BUCKET" : String) ≠ "PROVIDER" by decide)
  have hR := rcloneKey_ne_of_ne n (show ("BUCKET" : String) ≠ "REGION" by decide)
  have hE := rcloneKey_ne_of_ne n (show ("BUCKET" : String) ≠ "ENDPOINT" by decide)
  simp only [setup_rclone_env]
  split_ifs <;> simp_all [envSet, envClear]

/-! ## Parser-bound lemma -/

lemma headerSlice_take (bytes : List Nat) :
    headerSlice (bytes.take (8 + leNat (bytes.take 8))) = headerSlice bytes := by
  unfold headerSlice
  rw [List.take_take, Nat.min_def]
  simp only [Nat.le_add_right, if_pos]
  rw [List.drop_take]
  simp only [Nat.add_sub_cancel_left]
  rw [List.take_take, Nat.min_self]

end CMD

namespace CMD

/-! ## Claim theorems -/

/-- Claim C1: for every classification input whose header metadata
architecture string contains "vae" (case-insensitively, as the source
lower-cases it) and whose tensor names match the LoRA patterns, the classifier
returns category "vae" with confidence 0.95 — the metadata tier strictly
precedes the tensor-name tier in the cascade. -/
theorem metadata_vae_overrides_lora_tensors
    (decode : List Nat → Option STHeader) (bytes : List Nat)
    (filename : String) (sizeBytes : Nat) (h : STHeader) (archRaw : String)
    (hfn : pyendswith filename ".safetensors" = true)
    (hdec : decode (headerSlice bytes) = some h)
    (hne : tensor_names_of h ≠ [])
    (harch : List.lookup "modelspec.architecture" h.metadata = some archRaw)
    (hvae : pyIn "vae" (pylower archRaw) = true)
    (hlora : anyPattern lora_patterns ((tensor_names_of h).take 10) = true) :
    detect_model_type decode bytes filename sizeBytes =
      ⟨"vae", 0.95, "metadata architecture contains VAE"⟩ := by
  have hsome : detect_from_header h =
      some ⟨"vae", 0.95, "metadata architecture contains VAE"⟩ := by
    simp only [detect_from_header]
    rw [if_neg hne, harch]
    simp [hvae]
  simp only [detect_model_type, detect_from_safetensors, hfn, hdec, if_true,
    hsome]

/-- Concrete instance of claim C1: a header with a LoRA-looking tensor name and
metadata architecture "SDXL-VAE" classifies as vae at 0.95. -/
theorem metadata_vae_overrides_lora_tensors_witness :
    (pyendswith "model.safetensors" ".safetensors" = true ∧
      tensor_names_of ⟨["lora_unet_x"], [("modelspec.architecture", "SDXL-VAE")]⟩ ≠ [] ∧
      List.lookup "modelspec.architecture"
        (STHeader.mk ["lora_unet_x"]
          [("modelspec.architecture", "SDXL-VAE")]).metadata = some "SDXL-VAE" ∧
      pyIn "vae" (pylower "SDXL-VAE") = true ∧
      anyPattern lora_patterns
        ((tensor_names_of ⟨["lora_unet_x"],
          [("modelspec.architecture", "SDXL-VAE")]⟩).take 10) = true) ∧
    detect_model_type
        (fun _ => some ⟨["lora_unet_x"], [("modelspec.architecture", "SDXL-VAE")]⟩)
        [] "model.safetensors" 0 =
      ⟨"vae", 0.95, "metadata architecture contains VAE"⟩ :=
  ⟨⟨by decide, by decide, by decide, by decide, by decide⟩,
    metadata_vae_overrides_lora_tensors _ [] "model.safetensors" 0 _ "SDXL-VAE"
      (by decide) rfl (by decide) (by decide) (by decide) (by decide)⟩

/-- Claim C2 counterexample: when the key material has been replaced after a
profile was written, `get_remote` does NOT return the profile with the
affected fields left as ciphertext — `load_config` swallows the decrypt
failure and returns the empty default document, so `get_remote` returns
`none` for the very name that was saved. -/
theorem decrypt_failure_counterexample :
    decrypt_data "key2" (encrypt_data "key1" ⟨some "myb2", [("myb2", rcDemo)]⟩) = none ∧
    save_remote "key1" none "myb2" rcDemo =
      some (encrypt_data "key1" ⟨some "myb2", [("myb2", rcDemo)]⟩) ∧
    get_remote "key2" (save_remote "key1" none "myb2" rcDemo) "myb2" = none :=
  ⟨rfl, rfl, rfl⟩

/-- Claim C2 as amended: when the stored document cannot be decrypted, the
load degrades to the empty default configuration and `get_remote` returns
`none` for every name — it does not raise, and it does not return any
(partially decrypted or ciphertext-bearing) profile. -/
theorem decrypt_failure_yields_default (key name : String) (b : EncBlob)
    (hfail : decrypt_data key b = none) :
    load_config key (some b) = defaultConfig ∧
    get_remote key (some b) name = none := by
  have hload : load_config key (some b) = defaultConfig := by
    simp [load_config, hfail]
  refine ⟨hload, ?_⟩
  unfold get_remote
  rw [hload]
  by_cases hname : name ≠ "" <;> simp [hname, defaultConfig, List.lookup]

/-- Concrete instance of amended claim C2: a blob written under "key1" read
under "key2". -/
theorem decrypt_failure_yields_default_witness :
    decrypt_data "key2" (encrypt_data "key1" ⟨some "myb2", [("myb2", rcDemo)]⟩) = none ∧
    (load_config "key2"
        (some (encrypt_data "key1" ⟨some "myb2", [("myb2", rcDemo)]⟩)) = defaultConfig ∧
      get_remote "key2"
        (some (encrypt_data "key1" ⟨some "myb2", [("myb2", rcDemo)]⟩)) "myb2" = none) :=
  ⟨rfl, decrypt_failure_yields_default "key2" "myb2" _ rfl⟩

/-- Claim C3 counterexample: after a concrete save, the persisted document is
a single ciphertext of the whole configuration.  Inside it the stored entry is
the profile verbatim: its `access_key_id` is the plaintext "AK", not a
per-field ciphertext (`specFieldCipher` models the per-field encryption the
claim describes), and the encrypted document carries a top-level
`last_used_remote` key, so it is not of the claimed shape
`{"remotes": {...}}` with only the two secret fields encrypted. -/
theorem persisted_shape_counterexample :
    save_remote "k" none "myb2" rcDemo =
      some (encrypt_data "k" ⟨some "myb2", [("myb2", rcDemo)]⟩) ∧
    rcDemo.access_key_id ≠ specFieldCipher "k" rcDemo.access_key_id ∧
    rcDemo.secret_access_key ≠ specFieldCipher "k" rcDemo.secret_access_key ∧
    (Config.mk (some "myb2") [("myb2", rcDemo)]).last_used_remote ≠ none :=
  ⟨rfl, by decide, by decide, by decide⟩

/-- Claim C3 as amended: `save_remote` persists the whole configuration
document — `last_used_remote` plus the `remotes` mapping with every field of
every entry, secrets included, in cleartext inside the blob — as one
ciphertext under the installation key; decryption under the right key
recovers the saved entry verbatim and decryption under any other key fails
entirely (no field of the document, cleartext or secret, survives). -/
theorem save_encrypts_whole_config (key : String) (file : ConfigFile)
    (name : String) (rc : RemoteConfig)
    (key' : String) (hkey : key' ≠ key) :
    ∃ b : EncBlob, save_remote key file name rc = some b ∧
      (∃ cfg : Config, decrypt_data key b = some cfg ∧
        cfg.last_used_remote = some name ∧
        List.lookup name cfg.remotes = some rc) ∧
      decrypt_data key' b = none := by
  refine ⟨encrypt_data key
      ⟨some name, dictSet name rc (load_config key file).remotes⟩, rfl,
    ⟨⟨some name, dictSet name rc (load_config key file).remotes⟩, ?_, rfl,
      lookup_dictSet name rc _⟩, ?_⟩
  · simp [decrypt_data, encrypt_data]
  · exact if_neg fun e => hkey e.symm

/-- Concrete instance of amended claim C3. -/
theorem save_encrypts_whole_config_witness :
    ("k2" ≠ "k") ∧
    (∃ b : EncBlob, save_remote "k" none "myb2" rcDemo = some b ∧
      (∃ cfg : Config, decrypt_data "k" b = some cfg ∧
        cfg.last_used_remote = some "myb2" ∧
        List.lookup "myb2" cfg.remotes = some rcDemo) ∧
      decrypt_data "k2" b = none) :=
  ⟨by decide, save_encrypts_whole_config "k" none "myb2" rcDemo "k2" (by decide)⟩

/-- Claim C4 counterexample: for the empty name — which Python treats as
falsy in both `get_remote`'s branches — `save_remote` followed by `get_remote`
returns `none`, not the saved profile, so the round trip fails for that
name. -/
theorem roundtrip_empty_name_counterexample :
    get_remote "k" (save_remote "k" none "" rcDemo) "" = none := rfl

/-- Claim C4 as amended: for every nonempty name, `save_remote` followed by
`get_remote` on the same name returns exactly the saved profile — the same
provider, bucket, endpoint and region, and the same `access_key_id` and
`secret_access_key` (the whole-document encryption round-trips, so the
secrets come back equal to what was saved). -/
theorem save_get_roundtrip (key : String) (file : ConfigFile) (name : String)
    (rc : RemoteConfig) (hname : name ≠ "") :
    get_remote key (save_remote key file name rc) name = some rc := by
  unfold get_remote save_remote save_config load_config decrypt_data encrypt_data
  simp [hname, lookup_dictSet]

/-- Concrete instance of amended claim C4 (spec scenario 4). -/
theorem save_get_roundtrip_witness :
    ("myb2" ≠ "") ∧
    get_remote "k" (save_remote "k" none "myb2" rcDemo) "myb2" = some rcDemo :=
  ⟨by decide, save_get_roundtrip "k" none "myb2" rcDemo (by decide)⟩

/-- Claim C5 counterexample: the empty name has no saved entry, yet
`get_remote` does not return `none` for it — because the empty string is
falsy, the source falls back to `last_used_remote` and returns that profile
instead. -/
theorem get_unknown_empty_name_counterexample :
    List.lookup "" (load_config "k" (save_remote "k" none "x" rcDemo)).remotes = none ∧
    get_remote "k" (save_remote "k" none "x" rcDemo) "" = some rcDemo :=
  ⟨rfl, rfl⟩

/-- Claim C5 as amended: for every NONEMPTY name with no saved entry in the
loaded store, `get_remote` returns `none` and cannot raise (the embedding is a
total function into `Option`; the only fallible steps, file read and
decryption, are caught inside `load_config`).  For the empty name the source
instead falls back to the last-used remote. -/
theorem get_unknown_returns_none (key : String) (file : ConfigFile)
    (name : String) (hname : name ≠ "")
    (habs : List.lookup name (load_config key file).remotes = none) :
    get_remote key file name = none := by
  unfold get_remote
  simp [hname, habs]

/-- Concrete instance of amended claim C5 (spec scenario 5). -/
theorem get_unknown_returns_none_witness :
    ("doesnotexist" ≠ "" ∧
      List.lookup "doesnotexist" (load_config "k" none).remotes = none) ∧
    get_remote "k" none "doesnotexist" = none :=
  ⟨⟨by decide, rfl⟩, get_unknown_returns_none "k" none "doesnotexist" (by decide) rfl⟩

/-- Claim C6: classification is total — the embedding of `_detect_model_type`
returns a `ClassificationResult` for every input — and when the header cannot
be parsed (bad length prefix, non-UTF-8 or non-JSON header, i.e. the decode
pipeline raises), the exception is caught inside the classifier and the
result is exactly what the filename tier and then the size tier produce. -/
theorem classifier_total_degrades_on_corrupt_header
    (decode : List Nat → Option STHeader) (bytes : List Nat)
    (filename : String) (sizeBytes : Nat)
    (hbad : decode (headerSlice bytes) = none) :
    detect_model_type decode bytes filename sizeBytes =
      (match detect_from_filename filename with
       | some r => r
       | none => detect_from_size sizeBytes filename) := by
  simp only [detect_model_type, detect_from_safetensors, hbad]
  cases pyendswith filename ".safetensors" <;> simp

/-- Concrete instance of claim C6: a decoder that always fails. -/
theorem classifier_total_degrades_on_corrupt_header_witness :
    ((fun _ => (none : Option STHeader)) (headerSlice [0, 1, 2]) = none) ∧
    detect_model_type (fun _ => none) [0, 1, 2] "x.safetensors" 7 =
      (match detect_from_filename "x.safetensors" with
       | some r => r
       | none => detect_from_size 7 "x.safetensors") :=
  ⟨rfl, classifier_total_degrades_on_corrupt_header _ [0, 1, 2] "x.safetensors" 7 rfl⟩

/-- Claim C7 counterexample: the claim's smallest bucket boundary is 10MB, so
a 20MB file and a 60MB file would lie in the same claimed bucket
(10MB ≤ size < 500MB) and would have to classify identically; the source
instead splits at 50MB and gives them different confidences (0.3 vs 0.4). -/
theorem size_bucket_boundary_counterexample :
    detect_from_size (20 * 1048576) "model.safetensors" =
      ⟨"unknown", 0.3, "small file (20MB) - unclear type"⟩ ∧
    detect_from_size (60 * 1048576) "model.safetensors" =
      ⟨"unknown", 0.4, "medium file (60MB) - could be LoRA or VAE"⟩ ∧
    detect_from_size (20 * 1048576) "model.safetensors" ≠
      detect_from_size (60 * 1048576) "model.safetensors" := by
  have h20 : detect_from_size (20 * 1048576) "model.safetensors" =
      ⟨"unknown", 0.3, "small file (20MB) - unclear type"⟩ := by
    rw [detect_from_size_small _ _ (by norm_num)]
    rfl
  have h60 : detect_from_size (60 * 1048576) "model.safetensors" =
      ⟨"unknown", 0.4, "medium file (60MB) - could be LoRA or VAE"⟩ := by
    rw [detect_from_size_medium _ _ (by norm_num) (by norm_num)]
    rfl
  refine ⟨h20, h60, ?_⟩
  rw [h20, h60]
  intro he
  have hc := congrArg ClassificationResult.confidence he
  norm_num at hc

/-- Claim C7 as amended: the size-tier buckets are <50MB, <500MB, <3000MB and
≥3000MB; only the largest bucket maps to "checkpoints" at confidence 0.6, and
the others yield "unknown" at 0.3, 0.4 and 0.5 respectively (all within
[0.3, 0.5]); in particular a 6500MB file yields
("checkpoints", 0.6, "very large file (6500MB) - likely checkpoint"). -/
theorem size_tier_characterization (sizeBytes : Nat) (filename : String) :
    (sizeBytes < 50 * 1048576 →
      detect_from_size sizeBytes filename =
        ⟨"unknown", 0.3, "small file (" ++ fmtMB sizeBytes ++ "MB) - unclear type"⟩) ∧
    (50 * 1048576 ≤ sizeBytes → sizeBytes < 500 * 1048576 →
      detect_from_size sizeBytes filename =
        ⟨"unknown", 0.4, "medium file (" ++ fmtMB sizeBytes ++ "MB) - could be LoRA or VAE"⟩) ∧
    (500 * 1048576 ≤ sizeBytes → sizeBytes < 3000 * 1048576 →
      detect_from_size sizeBytes filename =
        ⟨"unknown", 0.5, "large file (" ++ fmtMB sizeBytes ++ "MB) - could be checkpoint"⟩) ∧
    (3000 * 1048576 ≤ sizeBytes →
      detect_from_size sizeBytes filename =
        ⟨"checkpoints", 0.6, "very large file (" ++ fmtMB sizeBytes ++ "MB) - likely checkpoint"⟩) :=
  ⟨fun h => detect_from_size_small _ _ (by omega),
    fun h1 h2 => detect_from_size_medium _ _ (by omega) (by omega),
    fun h1 h2 => detect_from_size_large _ _ (by omega) (by omega),
    fun h => detect_from_size_xlarge _ _ (by omega)⟩

/-- Concrete instance of amended claim C7: the spec's 6500MB scenario. -/
theorem size_tier_characterization_witness :
    (3000 * 1048576 ≤ 6500 * 1048576) ∧
    detect_from_size (6500 * 1048576) "sd_xl_base_1.0.safetensors" =
      ⟨"checkpoints", 0.6, "very large file (6500MB) - likely checkpoint"⟩ := by
  refine ⟨by norm_num, ?_⟩
  rw [(size_tier_characterization (6500 * 1048576) "sd_xl_base_1.0.safetensors").2.2.2
    (by norm_num)]
  rfl

/-- Claim C8: rebinding the same profile name first clears every binding with
that profile-name prefix, so a second bind with the same name fully overrides
the first — the resulting environment is identical to binding the second
profile directly (no field of the first invocation leaks) — and in particular
only the second bucket value is bound. -/
theorem rebind_same_name_no_leakage (n : String) (rc1 rc2 : RemoteConfig)
    (e : Env) :
    setup_rclone_env n rc2 (setup_rclone_env n rc1 e) = setup_rclone_env n rc2 e ∧
    (rc2.bucket ≠ "" →
      setup_rclone_env n rc2 (setup_rclone_env n rc1 e) (rcloneKey n "BUCKET") =
        some rc2.bucket) := by
  have hmain : ∀ k, setup_rclone_env n rc2 (setup_rclone_env n rc1 e) k =
      setup_rclone_env n rc2 e k := by
    intro k
    by_cases hk : pystartswith k (rclonePfx n) = true
    · exact setup_apply_pos n rc2 _ e k hk
    · have hk' : pystartswith k (rclonePfx n) = false := by
        simp only [Bool.not_eq_true] at hk
        exact hk
      rw [setup_apply_neg n rc2 _ k hk', setup_apply_neg n rc1 e k hk',
        setup_apply_neg n rc2 e k hk']
  refine ⟨funext hmain, fun hb => ?_⟩
  rw [hmain]
  exact setup_bucket_value n rc2 e hb

/-- Concrete instance of claim C8: binding "myb2" with bucket-one then
bucket-two leaves exactly the environment of the second bind, with
bucket-two bound. -/
theorem rebind_same_name_no_leakage_witness :
    (setup_rclone_env "myb2" rcSecond
        (setup_rclone_env "myb2" rcFirst (fun _ => none)) =
      setup_rclone_env "myb2" rcSecond (fun _ => none)) ∧
    (rcSecond.bucket ≠ "" ∧
      setup_rclone_env "myb2" rcSecond
          (setup_rclone_env "myb2" rcFirst (fun _ => none))
          (rcloneKey "myb2" "BUCKET") =
        some rcSecond.bucket) :=
  ⟨(rebind_same_name_no_leakage "myb2" rcFirst rcSecond (fun _ => none)).1,
    by decide,
    (rebind_same_name_no_leakage "myb2" rcFirst rcSecond (fun _ => none)).2
      (by decide)⟩

/-- Claim C9: the header parser takes the first 8 bytes as a little-endian
unsigned integer N and hands exactly the next (at most) N bytes to the
UTF-8/JSON decoder; consequently `_detect_from_safetensors` depends only on
the first N+8 bytes of the file — it never reads beyond them, for any N and
any total file size. -/
theorem header_reads_at_most_n_plus_8 (decode : List Nat → Option STHeader)
    (bytes : List Nat) :
    detect_from_safetensors decode bytes =
      detect_from_safetensors decode (bytes.take (8 + leNat (bytes.take 8))) := by
  unfold detect_from_safetensors
  rw [headerSlice_take]

/-- Claim C10: a parsed header whose only key is the reserved "__metadata__"
entry yields no decision from the header tiers at all — the
`if not tensor_names: return None` guard fires before the metadata check, so
even a metadata architecture naming "lora" is ignored — and the cascade falls
through to the filename and size tiers. -/
theorem metadata_only_header_falls_through
    (decode : List Nat → Option STHeader) (bytes : List Nat)
    (filename : String) (sizeBytes : Nat) (meta : List (String × String))
    (hdec : decode (headerSlice bytes) = some ⟨["__metadata__"], meta⟩) :
    detect_from_header ⟨["__metadata__"], meta⟩ = none ∧
    detect_model_type decode bytes filename sizeBytes =
      (match detect_from_filename filename with
       | some r => r
       | none => detect_from_size sizeBytes filename) := by
  have hnone : detect_from_header ⟨["__metadata__"], meta⟩ = none := by
    simp only [detect_from_header]
    rw [if_pos]
    rfl
  refine ⟨hnone, ?_⟩
  simp only [detect_model_type, detect_from_safetensors, hdec, hnone]
  cases pyendswith filename ".safetensors" <;> simp

/-- Concrete instance of claim C10: metadata names "lora" but there are no
tensor entries, so the header tiers are skipped. -/
theorem metadata_only_header_falls_through_witness :
    ((fun _ => some (STHeader.mk ["__metadata__"] [("modelspec.architecture", "lora")]))
        (headerSlice [0]) = some ⟨["__metadata__"], [("modelspec.architecture", "lora")]⟩) ∧
    (detect_from_header ⟨["__metadata__"], [("modelspec.architecture", "lora")]⟩ = none ∧
      detect_model_type
          (fun _ => some ⟨["__metadata__"], [("modelspec.architecture", "lora")]⟩)
          [0] "model_a.safetensors" 3 =
        (match detect_from_filename "model_a.safetensors" with
         | some r => r
         | none => detect_from_size 3 "model_a.safetensors")) :=
  ⟨rfl, metadata_only_header_falls_through _ [0] "model_a.safetensors" 3 _ rfl⟩

end CMD
